import Mathlib

/-!
Shallow embedding of the authentication/session core of the
`fastapi_authorization_logic` repository.

Source files embedded:
  * `src/core/jwt.py`            — token minting (`create_access_token`, `create_refresh_token`)
  * `src/db/redis_cache.py`      — `CacheRedis` (key/value) and `CacheRefreshTkns` (redis list)
  * `src/services/user.py`       — `UserService` methods
  * `src/api/v1/resources/users.py` — the endpoint handlers (`login`, `logout`,
    `logout_all`, `refresh_token`, `update_user_me`, `read_user_me`)

Conventions of the embedding:
  * The external PyJWT library is represented abstractly: a bearer token either
    decodes to its signed payload (signature, `exp`, `nbf` all verify at the
    time of the call) or `jwt.decode` raises `PyJWTError`.  `Token.signed p`
    stands for the former, `Token.invalid` for any token of the latter kind
    (malformed, wrong signature, or expired).
  * Redis and the SQL session are explicit state: `Store` carries the
    blocked-access-token cache (key/value pairs), the per-user refresh-token
    lists, and the `User` table.
  * A Python exception that an endpoint does not catch is an explicit error
    constructor (`Err.pyJWTErr`, `Err.valueErr`, ...); `fastapi.HTTPException`
    is `Err.http status detail`.
-/

namespace FastapiAuth

/-- A persisted `User` row (src/models/user.py).  `uuid` and `created_at` are
kept as the strings they are serialized to when placed in a token payload. -/
structure User where
  uuid : String
  username : String
  email : String
  hashed_password : String
  created_at : String
  is_active : Bool := true
  is_superuser : Bool := false
deriving Repr, DecidableEq

/-- The public `UserModel` pydantic schema (src/api/v1/schemas/users.py):
the fields that `dict(UserModel(**user.dict()))` serializes into a token. -/
structure UserModel where
  username : String
  uuid : String
  email : String
  created_at : String
  is_superuser : Bool
  is_active : Bool
deriving Repr, DecidableEq

/-- Computation `dict(UserModel(**user.dict()))` with `uuid`/`created_at` stringified, as
done in the `login` / `refresh` / `update_user_me` handlers. -/
def User.toModel (u : User) : UserModel :=
  { username := u.username
    uuid := u.uuid
    email := u.email
    created_at := u.created_at
    is_superuser := u.is_superuser
    is_active := u.is_active }

/-- Claims of an access token as built by `create_access_token`
(src/core/jwt.py): the caller-supplied `data` dict (a serialized `UserModel`)
plus `iat`, `nbf`, `exp`, a fresh `jti`, the linked `refresh_jti`, and
`type = "access"` (the `type` field is constant and therefore implicit). -/
structure AccessClaims where
  user : UserModel
  iat : Int
  nbf : Int
  exp : Int
  jti : String
  refresh_jti : String
deriving Repr, DecidableEq

/-- Claims of a refresh token as built by `create_refresh_token`
(src/core/jwt.py): `iat`, `jti`, `type = "refresh"` (implicit), `uuid`,
`nbf`, `exp`. -/
structure RefreshClaims where
  iat : Int
  nbf : Int
  exp : Int
  jti : String
  uuid : String
deriving Repr, DecidableEq

/-- A decoded JWT payload dict: either the claim set of an access token or of
a refresh token. -/
inductive Payload where
  | access : AccessClaims → Payload
  | refresh : RefreshClaims → Payload
deriving Repr, DecidableEq

/-- Subscript `payload["jti"]` — present in both token kinds. -/
def Payload.jti : Payload → String
  | .access c => c.jti
  | .refresh c => c.jti

/-- Subscript `payload["uuid"]` — present in both kinds: an access token carries the
user's `uuid` inside the copied `data` dict, a refresh token carries it as a
top-level claim. -/
def Payload.uuid : Payload → String
  | .access c => c.user.uuid
  | .refresh c => c.uuid

/-- Errors surfaced to the web layer.  `http` is a raised
`fastapi.HTTPException`; the remaining constructors are Python exceptions the
handlers never catch (they abort the request with a 500 response). -/
inductive Err where
  | http : Nat → String → Err
  | pyJWTErr : Err
  | valueErr : Err
  | keyErr : String → Err
  | validationErr : Err
  | attributeErr : Err
  | noResultFound : Err
deriving Repr, DecidableEq

/-- Subscript `payload["refresh_jti"]` — only access tokens carry it; on a refresh-token
payload the subscript raises `KeyError`. -/
def Payload.refreshJtiClaim : Payload → Except Err String
  | .access c => .ok c.refresh_jti
  | .refresh _ => .error (.keyErr "refresh_jti")

/-- A bearer token as presented to an endpoint.  `signed p` is a token for
which `jwt.decode(token, JWT_SECRET_KEY, algorithms=[JWT_ALGORITHM])`
succeeds and returns `p` (signature, expiry and not-before all verify at the
moment of the call); `invalid` is any token for which the decode raises a
`PyJWTError` (bad signature, malformed, or expired). -/
inductive Token where
  | signed : Payload → Token
  | invalid : Token
deriving Repr, DecidableEq

/-- Call `jwt.decode(token, JWT_SECRET_KEY, algorithms=[JWT_ALGORITHM])`. -/
def jwtDecode : Token → Except Err Payload
  | .signed p => .ok p
  | .invalid => .error .pyJWTErr

/-- Injective rendering of a payload's claims, standing for the middle
(claims) segment of the compact JWT serialization. -/
def Payload.render : Payload → String
  | .access c =>
      "access|" ++ c.user.username ++ "|" ++ c.user.uuid ++ "|" ++ c.user.email ++ "|" ++
        c.jti ++ "|" ++ c.refresh_jti ++ "|" ++ toString c.exp
  | .refresh c => "refresh|" ++ c.uuid ++ "|" ++ c.jti ++ "|" ++ toString c.exp

/-- The raw bearer string of a token: the three dot-separated base64 segments
`header.claims.signature` produced by `jwt.encode`.  The property of the wire
format that matters below is that this string is the whole serialized token —
it is not any single claim value such as the `jti`. -/
def Token.str : Token → String
  | .signed p => "eyJhbGciOiJIUzI1NiJ9." ++ p.render ++ ".sig"
  | .invalid => "not-a-valid-jwt"

/-- Modelled from the spec: `ACCESS_TOKEN_EXPIRE_MINUTES` lives in
`src/core/config.py`, which is not part of the sources; the spec fixes the
default access-token ttl at 15 minutes. -/
def ACCESS_TOKEN_EXPIRE_MINUTES : Int := 15

/-- Python `create_access_token(data=..., refresh_jti=...)` (src/core/jwt.py) with
the default `expires_delta = None`: fresh random `jti` (passed in explicitly
as `freshJti`, since the model has no ambient randomness), `iat = nbf = now`,
`exp = now + 15 min`, the caller's `data` dict copied in, `refresh_jti`
embedded, signed with the process secret — hence it decodes to its claims. -/
def create_access_token (data : UserModel) (refresh_jti : String) (now : Int)
    (freshJti : String) : AccessClaims :=
  { user := data
    iat := now
    nbf := now
    exp := now + 60 * ACCESS_TOKEN_EXPIRE_MINUTES
    jti := freshJti
    refresh_jti := refresh_jti }

/-- Python `create_refresh_token(user_uuid=...)` (src/core/jwt.py): fresh random
`jti` (explicit `freshJti`), fixed 30-day ttl. -/
def create_refresh_token (user_uuid : String) (now : Int)
    (freshJti : String) : RefreshClaims :=
  { iat := now
    nbf := now
    exp := now + 30 * 86400
    jti := freshJti
    uuid := user_uuid }

/-! ### The cache backends (src/db/redis_cache.py) -/

/-- The key/value cache used for blocked access tokens (`CacheRedis` backed by
redis `GET`/`SET`): an association list, most recent write first. -/
def KVCache := List (String × String)

/-- Python `CacheRedis.get`: `redis.get(name=key)`. -/
def kvGet (st : List (String × String)) (key : String) : Option String :=
  (st.find? (fun kv => kv.1 == key)).map (·.2)

/-- Python `CacheRedis.set`: `redis.set(name=key, value=value)` — overwrite. -/
def kvSet (st : List (String × String)) (key value : String) :
    List (String × String) :=
  (key, value) :: st.filter (fun kv => kv.1 != key)

/-- The per-user refresh-token lists (`CacheRefreshTkns` backed by redis
lists): an association list from user uuid to the stored redis list, whose
head is the most recently `LPUSH`ed element. -/
def tknsLookup (st : List (String × List String)) (key : String) : List String :=
  ((st.find? (fun kv => kv.1 == key)).map (·.2)).getD []

def tknsWrite (st : List (String × List String)) (key : String)
    (l : List String) : List (String × List String) :=
  (key, l) :: st.filter (fun kv => kv.1 != key)

/-- Python `CacheRefreshTkns.get`: `lrange(key, 0, llen(key))` — the whole stored
list, head first. -/
def cacheRefreshTkns_get (st : List (String × List String))
    (key : String) : List String :=
  tknsLookup st key

/-- Python `CacheRefreshTkns.add(key, *values)`: redis `LPUSH` pushes each value in
argument order onto the head of the list. -/
def cacheRefreshTkns_add (st : List (String × List String)) (key : String)
    (values : List String) : List (String × List String) :=
  tknsWrite st key (values.foldl (fun l v => v :: l) (tknsLookup st key))

/-- Python `CacheRefreshTkns.clean(key)`: `LPOP` repeated `llen(key)` times — empties
the stored list. -/
def cacheRefreshTkns_clean (st : List (String × List String))
    (key : String) : List (String × List String) :=
  tknsWrite st key []

/-! ### State of the whole system -/

/-- The external state the service manipulates: the blocklist cache
(`blocked_access_tokens`), the per-user refresh lists
(`active_refresh_tokens`), and the `User` table of the SQL session. -/
structure Store where
  blocked : List (String × String)
  refreshTkns : List (String × List String)
  users : List User
deriving Repr, DecidableEq

/-- The user's currently stored refresh-jti list, as `list(userId)` returns
it (head = most recently pushed). -/
def registryList (s : Store) (uuid : String) : List String :=
  cacheRefreshTkns_get s.refreshTkns uuid

/-! ### UserService (src/services/user.py) -/

/-- Python `UserService.get_by_username`. -/
def get_by_username (s : Store) (username : String) : Option User :=
  s.users.find? (fun u => u.username == username)

/-- Python `UserService.get_by_uuid`. -/
def get_by_uuid (s : Store) (uuid : String) : Option User :=
  s.users.find? (fun u => u.uuid == uuid)

/-- Modelled from the spec: `get_password_hash` lives in
`src/core/security.py`, absent from the sources; the spec treats hashing as a
black-box `hash(password) -> digest`.  Any injective digest function serves. -/
def get_password_hash (password : String) : String :=
  "bcrypt$" ++ password

/-- Modelled from the spec: `verify_password` from the absent
`src/core/security.py`; the spec's black-box `verify(password, digest) -> bool`. -/
def verify_password (plain hashed : String) : Bool :=
  get_password_hash plain == hashed

/-- Python `UserService.authenticate`. -/
def authenticate (s : Store) (username password : String) : Option User :=
  match get_by_username s username with
  | none => none
  | some user =>
      if verify_password password user.hashed_password then some user else none

/-- Python `UserService.check_block_token`: truthiness of
`blocked_access_tokens.get(jti)`. -/
def check_block_token (s : Store) (jti : String) : Bool :=
  (kvGet s.blocked jti).isSome

/-- Python `UserService.block_access_token`:
`blocked_access_tokens.set(jti, "blocked")`. -/
def block_access_token (s : Store) (jti : String) : Store :=
  { s with blocked := kvSet s.blocked jti "blocked" }

/-- Python `UserService.get_jti`: `jwt.decode(token, ...)` — with no exception
handler, so an invalid token propagates `PyJWTError` to the caller —
then `payload["jti"]`. -/
def get_jti (token : Token) : Except Err String := do
  let payload ← jwtDecode token
  return payload.jti

/-- Python `UserService.add_refresh_token(token)`: decode the token, then
`active_refresh_tokens.add(payload["uuid"], payload["jti"])`. -/
def add_refresh_token (s : Store) (token : Token) : Except Err Store := do
  let payload ← jwtDecode token
  return { s with
    refreshTkns := cacheRefreshTkns_add s.refreshTkns payload.uuid [payload.jti] }

/-- Python `UserService.remove_refresh_token(uuid, jti)`:
`current_tokens.pop(current_tokens.index(jti))` removes the first occurrence
of `jti` and raises `ValueError` when `jti` is absent (`List.erase` is
exactly pop-at-first-index); then `clean(uuid)` and, if anything is left,
`add(uuid, *current_tokens)` — an `LPUSH` of the survivors, which stores them
in reversed order. -/
def remove_refresh_token (s : Store) (uuid jti : String) : Except Err Store :=
  let current := cacheRefreshTkns_get s.refreshTkns uuid
  if jti ∈ current then
    let current := current.erase jti
    let st := cacheRefreshTkns_clean s.refreshTkns uuid
    if current.isEmpty then
      .ok { s with refreshTkns := st }
    else
      .ok { s with refreshTkns := cacheRefreshTkns_add st uuid current }
  else
    .error .valueErr

/-- Python `UserService.remove_all_refresh_tokens(uuid)`. -/
def remove_all_refresh_tokens (s : Store) (uuid : String) : Store :=
  { s with refreshTkns := cacheRefreshTkns_clean s.refreshTkns uuid }

/-- Python `UserService.check_refresh_token(uuid, jti)`. -/
def check_refresh_token (s : Store) (uuid jti : String) : Bool :=
  decide (jti ∈ cacheRefreshTkns_get s.refreshTkns uuid)

/-- Python `UserModel(**payload)`: pydantic builds the public user view from the
payload dict, ignoring extra claims; a refresh-token payload lacks the
required `username`/`email`/... fields, so validation raises. -/
def userModelOfPayload : Payload → Except Err UserModel
  | .access c => .ok c.user
  | .refresh _ => .error .validationErr

/-- Python `UserService.get_current_user(token)`.  Note the order faithfully kept
from the source: `get_jti` runs **before** the `try/except PyJWTError`
block, so an invalid token aborts with an uncaught `PyJWTError` rather than
the 403 `HTTPException`; the second `jwt.decode` is the one guarded. -/
def get_current_user (s : Store) (token : Token) : Except Err User := do
  let jti ← get_jti token
  if check_block_token s jti then
    .error (.http 401 "Token was blocked")
  else
    match jwtDecode token with
    | .error _ => .error (.http 403 "Could not validate credentials")
    | .ok payload =>
        match userModelOfPayload payload with
        | .error e => .error e
        | .ok user_data =>
            match s.users.find? (fun u => u.username == user_data.username) with
            | none => .error (.http 404 "User not found")
            | some user => .ok user

/-- The `UserUpdate` patch schema: each field independently optional. -/
structure UserUpdate where
  username : Option String := none
  email : Option String := none
deriving Repr, DecidableEq

/-- Python `UserService.update_user(user, new_data)`: select the row by the current
username (`results.one()` raises `NoResultFound` when absent), overwrite the
fields present in the patch, commit, and return the refreshed row. -/
def update_user (s : Store) (user : User) (new_data : UserUpdate) :
    Except Err (User × Store) :=
  match s.users.find? (fun u => u.username == user.username) with
  | none => .error .noResultFound
  | some selected =>
      let updated := { selected with
        username := new_data.username.getD selected.username
        email := new_data.email.getD selected.email }
      .ok (updated,
        { s with users := s.users.map (fun u => if u.uuid == selected.uuid then updated else u) })

/-- Abbreviation for the row `update_user` writes back: the selected row
with the patched fields overwritten. -/
def applyPatch (u : User) (new_data : UserUpdate) : User :=
  { u with
    username := new_data.username.getD u.username
    email := new_data.email.getD u.email }

/-! ### The endpoint handlers (src/api/v1/resources/users.py)

Each handler takes the `Store`, the bearer token and/or request body, and —
because the model has no ambient clock or randomness — the current time and
the fresh `uuid4` values the handler would draw.  A handler returns either
its response payload together with the updated store, or the error that
aborts the request. -/

/-- The `Token` response schema: the two serialized tokens the `login` and
`refresh` handlers return (the model carries the tokens themselves; the wire
response carries their `Token.str` serializations). -/
structure TokenPair where
  access_token : Token
  refresh_token : Token
deriving Repr, DecidableEq

/-- Handler `logout_all`: decode (uncaught `PyJWTError` on an invalid
token), block the access `jti`, clear the user's whole refresh list. -/
def logout_all (s : Store) (token : Token) : Except Err Store := do
  let payload ← jwtDecode token
  let s := block_access_token s payload.jti
  return remove_all_refresh_tokens s payload.uuid

/-- Handler `logout`: decode (uncaught `PyJWTError` on an invalid token),
read `jti`, `uuid`, `refresh_jti` from the payload, block the access `jti`,
remove the correlated refresh `jti` (which raises `ValueError` when it is
not in the list). -/
def logout (s : Store) (token : Token) : Except Err Store := do
  let payload ← jwtDecode token
  let jti := payload.jti
  let uuid := payload.uuid
  let refresh_jti ← payload.refreshJtiClaim
  let s := block_access_token s jti
  remove_refresh_token s uuid refresh_jti

/-- Handler `refresh_token`.  Faithful to the source: the decode is the one
operation guarded by `try/except PyJWTError` (→ 403); the handler then reads
`payload["uuid"]` and `payload["jti"]` — the presented token's **own** `jti`,
not its `refresh_jti` claim — removes that `jti` from the registry (an
uncaught `ValueError` when absent), loads the user by uuid
(`UserModel(**user.dict())` on `None` raises `AttributeError`), mints a new
refresh token and a new access token embedding the new refresh `jti`, and
returns both — without ever adding the new refresh `jti` to the registry. -/
def refresh_token (s : Store) (token : Token) (now : Int)
    (freshRefreshJti freshAccessJti : String) : Except Err (TokenPair × Store) :=
  match jwtDecode token with
  | .error _ => .error (.http 403 "Не удалось проверить учетные данные.")
  | .ok payload => do
      let user_uuid := payload.uuid
      let jti := payload.jti
      let s ← remove_refresh_token s user_uuid jti
      match get_by_uuid s user_uuid with
      | none => .error .attributeErr
      | some user =>
          let user_data := user.toModel
          let refreshTok := Token.signed (.refresh (create_refresh_token user_uuid now freshRefreshJti))
          let refresh_jti ← get_jti refreshTok
          let accessTok := Token.signed (.access (create_access_token user_data refresh_jti now freshAccessJti))
          return ({ access_token := accessTok, refresh_token := refreshTok }, s)

/-- Response of `update_user_me`: message, the updated user view, and a new
access token.  The handler also mints a refresh token but puts it neither in
the response nor in the registry — the schema has no `refresh_token` field. -/
structure UpdateResponse where
  user : UserModel
  access_token : Token
deriving Repr, DecidableEq

/-- Handler `update_user_me`: authenticate via `get_current_user`, apply the
patch through `update_user`, then `block_access_token(token)` — the argument
passed is the **raw bearer string**, not the token's `jti` —, mint a fresh
refresh token (discarded except for its `jti`) and a fresh access token
embedding that `jti`, and return the updated view plus the access token. -/
def update_user_me (s : Store) (new_data : UserUpdate) (token : Token)
    (now : Int) (freshRefreshJti freshAccessJti : String) :
    Except Err (UpdateResponse × Store) := do
  let current_user ← get_current_user s token
  let (new_user, s) ← update_user s current_user new_data
  let new_user_data := new_user.toModel
  let s := block_access_token s token.str
  let refreshTok := Token.signed (.refresh (create_refresh_token new_user_data.uuid now freshRefreshJti))
  let refresh_jti ← get_jti refreshTok
  let accessTok := Token.signed (.access (create_access_token new_user_data refresh_jti now freshAccessJti))
  return ({ user := new_user_data, access_token := accessTok }, s)

/-- Handler `read_user_me`: `get_current_user`, wrapped as the user view. -/
def read_user_me (s : Store) (token : Token) : Except Err UserModel := do
  let user ← get_current_user s token
  return user.toModel

/-- Handler `login`: authenticate (400 on failure), mint a refresh token,
extract its `jti`, mint an access token embedding that `jti`, register the
refresh token, return both tokens. -/
def login (s : Store) (username password : String) (now : Int)
    (freshRefreshJti freshAccessJti : String) : Except Err (TokenPair × Store) :=
  match authenticate s username password with
  | none => .error (.http 400 "Неправильное имя пользователя или пароль.")
  | some user => do
      let user_data := user.toModel
      let refreshTok := Token.signed (.refresh (create_refresh_token user_data.uuid now freshRefreshJti))
      let refresh_jti ← get_jti refreshTok
      let accessTok := Token.signed (.access (create_access_token user_data refresh_jti now freshAccessJti))
      let s ← add_refresh_token s refreshTok
      return ({ access_token := accessTok, refresh_token := refreshTok }, s)

/-! ### Concrete scenario fixtures

A single registered user `alice`, logged in on one device: the login issued a
refresh token with jti `r1` (registered) and an access token with jti `a1`
embedding `refresh_jti = r1`. -/

/-- Row of user alice as persisted after signup. -/
def aliceUser : User :=
  { uuid := "u-alice"
    username := "alice"
    email := "old@example.com"
    hashed_password := get_password_hash "password"
    created_at := "2023-01-01 00:00:00" }

/-- Claims of alice's current access token (jti `a1`, linked refresh jti `r1`). -/
def aliceAccess : AccessClaims :=
  create_access_token aliceUser.toModel "r1" 0 "a1"

/-- Access bearer token of alice's device. -/
def aliceTok : Token := Token.signed (Payload.access aliceAccess)

/-- Refresh bearer token of alice's device (jti `r1`). -/
def aliceRefreshTok : Token := Token.signed (Payload.refresh (create_refresh_token "u-alice" 0 "r1"))

/-- Store right after alice's login: empty blocklist, registry `u-alice ↦ [r1]`. -/
def baseStore : Store :=
  { blocked := []
    refreshTkns := [("u-alice", ["r1"])]
    users := [aliceUser] }

/-- Access claims whose embedded email is stale relative to the persisted
row (the row was changed after this token was issued). -/
def staleAccess : AccessClaims :=
  { aliceAccess with user := { aliceAccess.user with email := "stale@example.com" } }

/-- Verifying, unblocked access token carrying the stale claims. -/
def staleTok : Token := Token.signed (Payload.access staleAccess)

/-- Store in which alice's access jti `a1` has been blocked (as `logout`
does). -/
def blockedStore : Store := block_access_token baseStore "a1"

/-- Decidable equality on `Except`, needed to settle closed runs of the
handlers by evaluation. -/
instance {ε α : Type} [DecidableEq ε] [DecidableEq α] : DecidableEq (Except ε α) :=
  fun x y =>
    match x, y with
    | .ok a, .ok b =>
        if h : a = b then .isTrue (by rw [h])
        else .isFalse (fun hc => h (by injection hc))
    | .error a, .error b =>
        if h : a = b then .isTrue (by rw [h])
        else .isFalse (fun hc => h (by injection hc))
    | .ok _, .error _ => .isFalse (fun hc => Except.noConfusion hc)
    | .error _, .ok _ => .isFalse (fun hc => Except.noConfusion hc)

/-! ### Helper lemmas about the cache primitives -/

theorem find?_filter_ne {α : Type} (st : List (String × α)) (k k' : String)
    (h : k' ≠ k) :
    List.find? (fun kv => kv.1 == k') (List.filter (fun kv => kv.1 != k) st) =
      List.find? (fun kv => kv.1 == k') st := by
  induction st with
  | nil => rfl
  | cons hd tl ih =>
      by_cases hk : hd.1 = k
      · have h2 : (k == k') = false := beq_eq_false_iff_ne.mpr (Ne.symm h)
        simp [List.filter_cons, hk, List.find?_cons, h2, ih]
      · have h1 : (hd.1 != k) = true := by simpa using hk
        simp only [List.filter_cons, h1, if_true, List.find?_cons]
        cases hpk : (hd.1 == k') <;> simp [ih]

theorem kvGet_set_self (st : List (String × String)) (k v : String) :
    kvGet (kvSet st k v) k = some v := by
  simp [kvGet, kvSet, List.find?_cons_of_pos]

theorem kvGet_set_ne (st : List (String × String)) (k v k' : String)
    (h : k' ≠ k) : kvGet (kvSet st k v) k' = kvGet st k' := by
  unfold kvGet kvSet
  have h2 : (k == k') = false := beq_eq_false_iff_ne.mpr (Ne.symm h)
  simp only [List.find?_cons, h2]
  rw [find?_filter_ne st k k' h]

theorem tknsLookup_write_self (st : List (String × List String)) (k : String)
    (l : List String) : tknsLookup (tknsWrite st k l) k = l := by
  simp [tknsLookup, tknsWrite, List.find?_cons_of_pos]

theorem tknsLookup_write_ne (st : List (String × List String)) (k k' : String)
    (l : List String) (h : k' ≠ k) :
    tknsLookup (tknsWrite st k l) k' = tknsLookup st k' := by
  unfold tknsLookup tknsWrite
  have h2 : (k == k') = false := beq_eq_false_iff_ne.mpr (Ne.symm h)
  simp only [List.find?_cons, h2]
  rw [find?_filter_ne st k k' h]

theorem foldl_cons_eq (values acc : List String) :
    values.foldl (fun l v => v :: l) acc = values.reverse ++ acc := by
  induction values generalizing acc with
  | nil => simp
  | cons a vs ih => simp [List.foldl_cons, ih]

/-- LPUSH semantics of the registry: `add` prepends, so the stored list after
`add(key, *values)` is the reversed `values` in front of the old list. -/
theorem cacheRefreshTkns_get_add_self (st : List (String × List String))
    (k : String) (values : List String) :
    cacheRefreshTkns_get (cacheRefreshTkns_add st k values) k =
      values.reverse ++ tknsLookup st k := by
  simp [cacheRefreshTkns_add, cacheRefreshTkns_get, tknsLookup_write_self,
    foldl_cons_eq]

theorem cacheRefreshTkns_get_add_ne (st : List (String × List String))
    (k k' : String) (values : List String) (h : k' ≠ k) :
    cacheRefreshTkns_get (cacheRefreshTkns_add st k values) k' =
      cacheRefreshTkns_get st k' := by
  simp [cacheRefreshTkns_add, cacheRefreshTkns_get, tknsLookup_write_ne _ _ _ _ h]

theorem cacheRefreshTkns_get_clean_self (st : List (String × List String))
    (k : String) :
    cacheRefreshTkns_get (cacheRefreshTkns_clean st k) k = [] := by
  simp [cacheRefreshTkns_clean, cacheRefreshTkns_get, tknsLookup_write_self]

theorem cacheRefreshTkns_get_clean_ne (st : List (String × List String))
    (k k' : String) (h : k' ≠ k) :
    cacheRefreshTkns_get (cacheRefreshTkns_clean st k) k' =
      cacheRefreshTkns_get st k' := by
  simp [cacheRefreshTkns_clean, cacheRefreshTkns_get, tknsLookup_write_ne _ _ _ _ h]

/-! ### Helper lemmas about the service operations -/

/-- Successful removal: when `jti` is present, `remove_refresh_token`
succeeds; the user's stored list becomes the erase-first-occurrence result
reversed (the LPUSH rewrite), and nothing else in the store changes. -/
theorem remove_refresh_token_ok (s : Store) (uuid jti : String)
    (h : jti ∈ registryList s uuid) :
    ∃ s', remove_refresh_token s uuid jti = Except.ok s' ∧
      registryList s' uuid = ((registryList s uuid).erase jti).reverse ∧
      s'.blocked = s.blocked ∧ s'.users = s.users ∧
      ∀ u', u' ≠ uuid → registryList s' u' = registryList s u' := by
  simp only [remove_refresh_token]
  rw [if_pos (show jti ∈ cacheRefreshTkns_get s.refreshTkns uuid from h)]
  by_cases he : ((cacheRefreshTkns_get s.refreshTkns uuid).erase jti).isEmpty
  · have hnil : (cacheRefreshTkns_get s.refreshTkns uuid).erase jti = [] :=
      List.isEmpty_iff.mp he
    refine ⟨{ s with refreshTkns := cacheRefreshTkns_clean s.refreshTkns uuid },
      by rw [if_pos he], ?_, rfl, rfl, ?_⟩
    · show cacheRefreshTkns_get (cacheRefreshTkns_clean s.refreshTkns uuid) uuid = _
      rw [cacheRefreshTkns_get_clean_self]
      show _ = ((cacheRefreshTkns_get s.refreshTkns uuid).erase jti).reverse
      rw [hnil]
      rfl
    · intro u' hu
      show cacheRefreshTkns_get (cacheRefreshTkns_clean s.refreshTkns uuid) u' = _
      rw [cacheRefreshTkns_get_clean_ne _ _ _ hu]
      rfl
  · refine ⟨{ s with refreshTkns := cacheRefreshTkns_add (cacheRefreshTkns_clean s.refreshTkns uuid) uuid ((cacheRefreshTkns_get s.refreshTkns uuid).erase jti) }, by rw [if_neg he], ?_, rfl, rfl, ?_⟩
    · show cacheRefreshTkns_get (cacheRefreshTkns_add _ uuid _) uuid = _
      rw [cacheRefreshTkns_get_add_self]
      show _ ++ tknsLookup (tknsWrite _ uuid []) uuid = _
      rw [tknsLookup_write_self, List.append_nil]
      rfl
    · intro u' hu
      show cacheRefreshTkns_get (cacheRefreshTkns_add _ uuid _) u' = _
      rw [cacheRefreshTkns_get_add_ne _ _ _ _ hu,
        cacheRefreshTkns_get_clean_ne _ _ _ hu]
      rfl

/-- Failing removal: an absent `jti` makes `list.index` raise `ValueError`. -/
theorem remove_refresh_token_absent (s : Store) (uuid jti : String)
    (h : jti ∉ registryList s uuid) :
    remove_refresh_token s uuid jti = Except.error Err.valueErr := by
  simp only [remove_refresh_token]
  rw [if_neg (show jti ∉ cacheRefreshTkns_get s.refreshTkns uuid from h)]

/-- Removal never reads nor writes the blocklist. -/
theorem remove_refresh_token_set_blocked (s : Store)
    (b : List (String × String)) (uuid jti : String) :
    remove_refresh_token { s with blocked := b } uuid jti =
      (remove_refresh_token s uuid jti).map (fun s' => { s' with blocked := b }) := by
  simp only [remove_refresh_token]
  by_cases h : jti ∈ cacheRefreshTkns_get s.refreshTkns uuid
  · by_cases he : ((cacheRefreshTkns_get s.refreshTkns uuid).erase jti).isEmpty
    · simp [h, he, Except.map]
    · simp [h, he, Except.map]
  · simp [h, Except.map]

/-- Only `ValueError` can come out of `remove_refresh_token`. -/
theorem remove_refresh_token_error_eq (s : Store) (uuid jti : String) (e : Err)
    (h : remove_refresh_token s uuid jti = Except.error e) : e = Err.valueErr := by
  by_cases hm : jti ∈ cacheRefreshTkns_get s.refreshTkns uuid
  · simp only [remove_refresh_token] at h
    rw [if_pos hm] at h
    by_cases he : ((cacheRefreshTkns_get s.refreshTkns uuid).erase jti).isEmpty
    · rw [if_pos he] at h
      exact absurd h (by simp)
    · rw [if_neg he] at h
      exact absurd h (by simp)
  · have hr := remove_refresh_token_absent s uuid jti hm
    rw [hr] at h
    injection h with h'
    exact h'.symm

/-! ### Helper lemmas about `get_current_user` and the handlers -/

/-- Success path of `get_current_user`: a verifying access token whose `jti`
is not blocked and whose embedded username matches a row returns that row. -/
theorem get_current_user_ok (s : Store) (c : AccessClaims) (u : User)
    (hb : check_block_token s c.jti = false)
    (hf : s.users.find? (fun x => x.username == c.user.username) = some u) :
    get_current_user s (Token.signed (Payload.access c)) = Except.ok u := by
  simp [get_current_user, get_jti, jwtDecode, Payload.jti, hb,
    userModelOfPayload, hf, Bind.bind, Except.bind, pure, Except.pure]

/-- Blocked path of `get_current_user`: a verifying token whose `jti` is in
the blocklist is rejected with the 401 "Token was blocked" exception. -/
theorem get_current_user_blocked (s : Store) (p : Payload)
    (hb : check_block_token s p.jti = true) :
    get_current_user s (Token.signed p) =
      Except.error (Err.http 401 "Token was blocked") := by
  simp [get_current_user, get_jti, jwtDecode, hb, Bind.bind, Except.bind,
    pure, Except.pure]

/-- Handler `refresh_token` never reads the blocklist: its outcome on a store
with any other blocklist is the same outcome, with that blocklist carried
through unchanged. -/
theorem refresh_token_set_blocked (s : Store) (b : List (String × String))
    (token : Token) (now : Int) (fr fa : String) :
    refresh_token { s with blocked := b } token now fr fa =
      (refresh_token s token now fr fa).map
        (fun rs => (rs.1, { rs.2 with blocked := b })) := by
  cases token with
  | invalid => rfl
  | signed p =>
      simp only [refresh_token, jwtDecode]
      rw [show ({ s with blocked := b } : Store).refreshTkns = s.refreshTkns from rfl]
      rw [remove_refresh_token_set_blocked]
      cases hrem : remove_refresh_token s p.uuid p.jti with
      | error e => simp [Bind.bind, Except.bind, Except.map]
      | ok s1 =>
          simp only [Except.map, Bind.bind, Except.bind]
          cases hu : get_by_uuid s1 p.uuid with
          | none =>
              rw [show get_by_uuid { s1 with blocked := b } p.uuid =
                get_by_uuid s1 p.uuid from rfl, hu]
          | some user =>
              rw [show get_by_uuid { s1 with blocked := b } p.uuid =
                get_by_uuid s1 p.uuid from rfl, hu]
              simp [get_jti, jwtDecode, Bind.bind, Except.bind, pure, Except.pure]

/-- Handler `refresh_token` can fail with the 403 decode failure, an uncaught
`ValueError` or an uncaught `AttributeError`, but never with the 401
"Token was blocked" rejection. -/
theorem refresh_token_never_blocked_err (s : Store) (token : Token)
    (now : Int) (fr fa : String) :
    refresh_token s token now fr fa ≠
      Except.error (Err.http 401 "Token was blocked") := by
  cases token with
  | invalid =>
      intro hc
      rw [show refresh_token s Token.invalid now fr fa =
        Except.error (Err.http 403 "Не удалось проверить учетные данные.") from rfl] at hc
      exact absurd hc (by decide)
  | signed p =>
      simp only [refresh_token, jwtDecode]
      cases hrem : remove_refresh_token s p.uuid p.jti with
      | error e =>
          have he := remove_refresh_token_error_eq _ _ _ _ hrem
          subst he
          simp [Bind.bind, Except.bind]
      | ok s1 =>
          cases hu : get_by_uuid s1 p.uuid with
          | none => simp [Bind.bind, Except.bind, hu]
          | some user =>
              simp [Bind.bind, Except.bind, hu, get_jti, jwtDecode, pure, Except.pure]

/-! ### Claims -/

/-- Claim C1: the spec states that `refresh` extracts the embedded refresh
jti from the presented access token, removes exactly that jti from the
registry, issues a new refresh+access pair and registers the new refresh
jti, so that a repeat refresh fails with SessionNotFound/TokenInvalid.  The
code instead removes `payload["jti"]` — the presented token's own id: a
presented access token crashes with an uncaught `ValueError` (its own jti is
never in the registry); when the refresh token itself is presented the
rotation consumes its jti but never registers the newly minted refresh jti
(the registry ends empty), and a repeat refresh crashes with the same
uncaught `ValueError` rather than a classified failure. -/
theorem claim_C1_refresh_flow :
    refresh_token baseStore aliceTok 0 "r2" "a2" = Except.error Err.valueErr ∧
    (refresh_token baseStore aliceRefreshTok 0 "r2" "a2").map
        (fun rs => registryList rs.2 "u-alice") = Except.ok [] ∧
    (refresh_token baseStore aliceRefreshTok 0 "r2" "a2").map
        (fun rs => rs.1.refresh_token) =
      Except.ok (Token.signed (Payload.refresh (create_refresh_token "u-alice" 0 "r2"))) ∧
    (refresh_token baseStore aliceRefreshTok 0 "r2" "a2").map
        (fun rs => refresh_token rs.2 aliceRefreshTok 0 "r3" "a3") =
      Except.ok (Except.error Err.valueErr) := by
  decide

/-- Claim C2: the spec states that `updateProfile` blocks the caller's
current access token so that a subsequent validateAccess with that token
fails as revoked, while other devices' registry entries stay.  The handler
passes the raw bearer string — not the token's jti — to
`block_access_token`, while `get_current_user` consults the blocklist under
the jti: after a successful update the registry is indeed untouched, but the
jti `a1` is not blocked and the very same token still validates, returning
the updated row instead of the 401 revocation error. -/
theorem claim_C2_updateProfile_block_misses :
    (update_user_me baseStore { email := some "new@example.com" } aliceTok 0 "r2" "a2").map
        (fun rs => (registryList rs.2 "u-alice", check_block_token rs.2 "a1",
          get_current_user rs.2 aliceTok)) =
      Except.ok (["r1"], false,
        Except.ok { aliceUser with email := "new@example.com" }) := by
  decide

/-- Claim C3: the spec states that removing an absent jti is an error-free
no-op, making a double `logout` reproduce the single-`logout` state.  In the
code `current_tokens.index(jti)` raises: removing an absent jti is an
uncaught `ValueError`, and the second `logout` with the same access token
crashes instead of succeeding idempotently. -/
theorem claim_C3_double_logout_crashes :
    remove_refresh_token baseStore "u-alice" "not-present" = Except.error Err.valueErr ∧
    (logout baseStore aliceTok).map (fun s1 => logout s1 aliceTok) =
      Except.ok (Except.error Err.valueErr) := by
  decide

/-- Claim C4: the spec states that a token failing signature/expiry/shape
verification makes validateAccess fail with the distinct TokenInvalid
outcome (the 403 `HTTPException`), never an unclassified crash.  In
`get_current_user` the first decode happens inside `get_jti`, **outside**
the `try/except PyJWTError` block, so an invalid token escapes as an
uncaught `PyJWTError` (a 500-level crash), not the classified 403. -/
theorem claim_C4_invalid_token_uncaught :
    get_current_user baseStore Token.invalid = Except.error Err.pyJWTErr ∧
    (Except.error Err.pyJWTErr : Except Err User) ≠
      Except.error (Err.http 403 "Could not validate credentials") := by
  decide

/-- Claim C8 counterexample: with a verifying, unblocked access token whose
embedded email is `stale@example.com` while the persisted row holds
`old@example.com`, validateAccess succeeds but hands back the database row —
its fields do not match the token's embedded claims, refuting the claim that
the returned user view equals the embedded claims. -/
theorem claim_C8_counterexample :
    get_current_user baseStore staleTok = Except.ok aliceUser ∧
    aliceUser.email ≠ staleAccess.user.email := by
  decide

/-- Claim C8 (amended): on a verifying access token whose jti is not blocked
and whose embedded username matches a persisted row, validateAccess succeeds
and returns that persisted row — the record looked up in the database by the
token's embedded username, which coincides with the embedded claims only
while the row is unchanged. -/
theorem claim_C8_returns_db_row (s : Store) (c : AccessClaims) (u : User)
    (hb : check_block_token s c.jti = false)
    (hf : s.users.find? (fun x => x.username == c.user.username) = some u) :
    get_current_user s (Token.signed (Payload.access c)) = Except.ok u :=
  get_current_user_ok s c u hb hf

/-- Witness for the amended C8 theorem at the concrete base scenario. -/
theorem claim_C8_witness :
    check_block_token baseStore aliceAccess.jti = false ∧
    baseStore.users.find? (fun x => x.username == aliceAccess.user.username) =
      some aliceUser ∧
    get_current_user baseStore (Token.signed (Payload.access aliceAccess)) =
      Except.ok aliceUser :=
  ⟨by decide, by decide,
    claim_C8_returns_db_row baseStore aliceAccess aliceUser (by decide) (by decide)⟩

/-- Claim C9 counterexample: `add` is a redis LPUSH, so after adding `a`
then `b`, `list` returns `[b, a]` — the most recently added jti first, not
the insertion order `[a, b]` the claim states. -/
theorem claim_C9_counterexample :
    cacheRefreshTkns_get
        (cacheRefreshTkns_add (cacheRefreshTkns_add [] "u" ["a"]) "u" ["b"]) "u" =
      ["b", "a"] ∧
    cacheRefreshTkns_get
        (cacheRefreshTkns_add (cacheRefreshTkns_add [] "u" ["a"]) "u" ["b"]) "u" ≠
      ["a", "b"] := by
  decide

/-- Claim C9 (amended): `add` prepends (LPUSH), so `list` returns the user's
jtis most-recently-added first; and because `remove_refresh_token` rewrites
the surviving entries through LPUSH, a removal erases the first occurrence
and stores the survivors in reversed order. -/
theorem claim_C9_prepend_order (s : Store) (uuid jti v : String)
    (h : jti ∈ registryList s uuid) :
    registryList
        { s with refreshTkns := cacheRefreshTkns_add s.refreshTkns uuid [v] } uuid =
      v :: registryList s uuid ∧
    (remove_refresh_token s uuid jti).map (fun s' => registryList s' uuid) =
      Except.ok ((registryList s uuid).erase jti).reverse := by
  constructor
  · show cacheRefreshTkns_get _ _ = _
    rw [cacheRefreshTkns_get_add_self]
    rfl
  · obtain ⟨s', hs', hreg, -, -, -⟩ := remove_refresh_token_ok s uuid jti h
    rw [hs']
    simp [Except.map, hreg]

/-- Witness for the amended C9 theorem at the concrete base scenario. -/
theorem claim_C9_witness :
    "r1" ∈ registryList baseStore "u-alice" ∧
    (registryList
        { baseStore with
          refreshTkns := cacheRefreshTkns_add baseStore.refreshTkns "u-alice" ["x"] }
        "u-alice" = "x" :: registryList baseStore "u-alice" ∧
      (remove_refresh_token baseStore "u-alice" "r1").map
          (fun s' => registryList s' "u-alice") =
        Except.ok ((registryList baseStore "u-alice").erase "r1").reverse) :=
  ⟨by decide, claim_C9_prepend_order baseStore "u-alice" "r1" "x" (by decide)⟩

/-- Claim C5: for valid login credentials, `login` returns an access token
whose embedded `refresh_jti` claim equals the jti of the simultaneously
returned refresh token, and that refresh jti is present in the registry
entry of the user immediately after the call. -/
theorem claim_C5_login_links_refresh_jti (s : Store) (username password : String)
    (user : User) (now : Int) (fr fa : String)
    (h : authenticate s username password = some user) :
    ∃ acc rfr s',
      login s username password now fr fa =
        Except.ok ({ access_token := Token.signed (Payload.access acc),
                     refresh_token := Token.signed (Payload.refresh rfr) }, s') ∧
      acc.refresh_jti = rfr.jti ∧
      rfr.jti ∈ registryList s' user.uuid := by
  refine ⟨create_access_token user.toModel fr now fa,
    create_refresh_token user.uuid now fr,
    { s with refreshTkns := cacheRefreshTkns_add s.refreshTkns user.uuid [fr] },
    ?_, rfl, ?_⟩
  · simp [login, h, get_jti, jwtDecode, add_refresh_token, Bind.bind,
      Except.bind, pure, Except.pure, Payload.uuid, Payload.jti, User.toModel,
      create_refresh_token]
  · show fr ∈ cacheRefreshTkns_get _ _
    rw [cacheRefreshTkns_get_add_self]
    simp

/-- Witness for the C5 theorem: alice logs in with her real password. -/
theorem claim_C5_witness :
    authenticate baseStore "alice" "password" = some aliceUser ∧
    (∃ acc rfr s',
      login baseStore "alice" "password" 0 "r9" "a9" =
        Except.ok ({ access_token := Token.signed (Payload.access acc),
                     refresh_token := Token.signed (Payload.refresh rfr) }, s') ∧
      acc.refresh_jti = rfr.jti ∧
      rfr.jti ∈ registryList s' aliceUser.uuid) :=
  ⟨by decide,
    claim_C5_login_links_refresh_jti baseStore "alice" "password" aliceUser 0 "r9" "a9"
      (by decide)⟩

/-- Claim C6: once an access token's jti is in the revocation store,
validateAccess rejects the token with the 401 TokenRevoked outcome even
though the token itself still passes signature/expiry verification. -/
theorem claim_C6_revocation_gate (s : Store) (p : Payload)
    (hb : check_block_token s p.jti = true) :
    get_current_user s (Token.signed p) =
      Except.error (Err.http 401 "Token was blocked") :=
  get_current_user_blocked s p hb

/-- Witness for the C6 theorem: alice's token after her jti `a1` was
blocked. -/
theorem claim_C6_witness :
    check_block_token blockedStore (Payload.access aliceAccess).jti = true ∧
    get_current_user blockedStore (Token.signed (Payload.access aliceAccess)) =
      Except.error (Err.http 401 "Token was blocked") :=
  ⟨by decide,
    claim_C6_revocation_gate blockedStore (Payload.access aliceAccess) (by decide)⟩

/-- Claim C7: the refresh handler never consults the revocation store — on a
verifying token whose jti is blocked it never fails with the 401
TokenRevoked rejection, and its whole outcome is insensitive to the
blocklist: running it with any other blocklist yields the same outcome with
that blocklist merely carried through. -/
theorem claim_C7_refresh_ignores_revocation (s : Store)
    (b : List (String × String)) (p : Payload) (now : Int) (fr fa : String)
    (_hb : check_block_token s p.jti = true) :
    refresh_token s (Token.signed p) now fr fa ≠
      Except.error (Err.http 401 "Token was blocked") ∧
    refresh_token { s with blocked := b } (Token.signed p) now fr fa =
      (refresh_token s (Token.signed p) now fr fa).map
        (fun rs => (rs.1, { rs.2 with blocked := b })) :=
  ⟨refresh_token_never_blocked_err s (Token.signed p) now fr fa,
    refresh_token_set_blocked s b (Token.signed p) now fr fa⟩

/-- Witness for the C7 theorem: alice's blocked access token presented to
refresh. -/
theorem claim_C7_witness :
    check_block_token blockedStore (Payload.access aliceAccess).jti = true ∧
    (refresh_token blockedStore (Token.signed (Payload.access aliceAccess)) 0 "r2" "a2" ≠
        Except.error (Err.http 401 "Token was blocked") ∧
      refresh_token { blockedStore with blocked := [] }
          (Token.signed (Payload.access aliceAccess)) 0 "r2" "a2" =
        (refresh_token blockedStore (Token.signed (Payload.access aliceAccess)) 0 "r2" "a2").map
          (fun rs => (rs.1, { rs.2 with blocked := [] }))) :=
  ⟨by decide,
    claim_C7_refresh_ignores_revocation blockedStore [] (Payload.access aliceAccess)
      0 "r2" "a2" (by decide)⟩

/-- Claim C10: after a successful `update_user_me`, the freshly minted
refresh token is neither returned (the response schema has no refresh-token
field) nor registered: the registry is exactly what it was before the call,
and the `refresh_jti` embedded in the returned access token is absent from
the user's registry entry — the issued-implies-registered session invariant
fails for that token. -/
theorem claim_C10_update_refresh_unregistered (s : Store) (c : AccessClaims)
    (u : User) (new_data : UserUpdate) (now : Int) (fr fa : String)
    (hb : check_block_token s c.jti = false)
    (hf : s.users.find? (fun x => x.username == c.user.username) = some u)
    (hfr : fr ∉ registryList s u.uuid) :
    ∃ resp s',
      update_user_me s new_data (Token.signed (Payload.access c)) now fr fa =
        Except.ok (resp, s') ∧
      resp.access_token = Token.signed (Payload.access
        (create_access_token resp.user fr now fa)) ∧
      (create_access_token resp.user fr now fa).refresh_jti = fr ∧
      s'.refreshTkns = s.refreshTkns ∧
      resp.user.uuid = u.uuid ∧
      fr ∉ registryList s' resp.user.uuid := by
  have huname : u.username = c.user.username := by
    have hp := List.find?_some hf
    simpa using hp
  have hupd : s.users.find? (fun x => x.username == u.username) = some u := by
    rw [show (fun x : User => x.username == u.username) =
      (fun x : User => x.username == c.user.username) from by funext x; rw [huname]]
    exact hf
  have hrun : update_user_me s new_data (Token.signed (Payload.access c)) now fr fa =
      Except.ok
        ({ user := (applyPatch u new_data).toModel,
           access_token := Token.signed (Payload.access
             (create_access_token (applyPatch u new_data).toModel fr now fa)) },
         { s with
           users := s.users.map
             (fun x => if x.uuid == u.uuid then applyPatch u new_data else x),
           blocked := kvSet s.blocked
             (Token.str (Token.signed (Payload.access c))) "blocked" }) := by
    simp [update_user_me, get_current_user_ok s c u hb hf, update_user, hupd,
      block_access_token, get_jti, jwtDecode, Bind.bind, Except.bind, pure,
      Except.pure, Payload.jti, applyPatch, create_refresh_token]
  refine ⟨_, _, hrun, rfl, rfl, rfl, rfl, ?_⟩
  exact hfr

/-- Witness for the C10 theorem: alice patches her email; the fresh refresh
jti `r2` was not registered before and is not registered after. -/
theorem claim_C10_witness :
    check_block_token baseStore aliceAccess.jti = false ∧
    baseStore.users.find? (fun x => x.username == aliceAccess.user.username) =
      some aliceUser ∧
    "r2" ∉ registryList baseStore aliceUser.uuid ∧
    (∃ resp s',
      update_user_me baseStore { email := some "new@example.com" }
          (Token.signed (Payload.access aliceAccess)) 0 "r2" "a2" =
        Except.ok (resp, s') ∧
      resp.access_token = Token.signed (Payload.access
        (create_access_token resp.user "r2" 0 "a2")) ∧
      (create_access_token resp.user "r2" 0 "a2").refresh_jti = "r2" ∧
      s'.refreshTkns = baseStore.refreshTkns ∧
      resp.user.uuid = aliceUser.uuid ∧
      "r2" ∉ registryList s' resp.user.uuid) :=
  ⟨by decide, by decide, by decide,
    claim_C10_update_refresh_unregistered baseStore aliceAccess aliceUser
      { email := some "new@example.com" } 0 "r2" "a2"
      (by decide) (by decide) (by decide)⟩

end FastapiAuth
